import Mathlib

/-!
# Verification of the yhdl sync engine against its specification

Shallow embedding of the sync-state store (`src/sync/state.ts`), the name
normalization (`src/library/scanner.ts`), the batch scheduler and sync
orchestrator (`src/sync/sync.ts`), and the release-type classifier.

Modelling conventions:
* JavaScript `Date` values are embedded as `Int` milliseconds since the epoch;
  a stored `toISOString()` timestamp is represented by the instant it encodes
  (`toISOString` is injective and `new Date(iso)` inverts it on valid inputs).
* JavaScript numbers are embedded as exact rationals (`ℚ`) or integers where
  the code only ever holds integers; the values appearing in the claims are
  far from any double-rounding boundary.
* JSON documents are embedded by the inductive `Json`; object spread and
  property access follow JavaScript semantics (later spread wins, property
  access on `null` throws, property access on other primitives yields
  `undefined`, modelled as `none`).
* `fs`/`JSON.parse` outcomes are passed in explicitly: a state file is
  `Option (Option Json)` (`none` = missing/unreadable file, `some none` =
  unparseable content, `some (some doc)` = parsed document).
* Async scheduling is embedded by an explicit completion-priority schedule:
  at each `await`, pending launched promises settle in schedule order until
  the awaited condition holds (cooperative single-threaded event loop).
-/

/-! ## JSON values and JavaScript object semantics -/

/-- A JSON value, as produced by `JSON.parse`. -/
inductive Json where
  | null : Json
  | bool (b : Bool) : Json
  | num (q : ℚ) : Json
  | str (s : String) : Json
  | arr (elems : List Json) : Json
  | obj (fields : List (String × Json)) : Json

/-- Property lookup on a JavaScript object: first binding of the key wins
(our field lists never repeat keys, matching `JSON.parse` output). -/
def jsLookup (fields : List (String × Json)) (k : String) : Option Json :=
  (fields.find? (fun p => p.1 == k)).map (fun p => p.2)

/-- JavaScript truthiness of a value (`!x` negates this). -/
def jsTruthy : Json → Bool
  | Json.null => false
  | Json.bool b => b
  | Json.num q => !(q == 0)
  | Json.str s => !s.isEmpty
  | Json.arr _ => true
  | Json.obj _ => true

/-- Whether `typeof x === "object"` holds: true for `null`, arrays and
plain objects. -/
def jsTypeofObject : Json → Bool
  | Json.null => true
  | Json.arr _ => true
  | Json.obj _ => true
  | _ => false

/-- Assign a field on a JavaScript object: overwrite the existing binding in
place, else append (JS property-creation order). -/
def setField (fields : List (String × Json)) (k : String) (v : Json) :
    List (String × Json) :=
  if fields.any (fun p => p.1 == k) then
    fields.map (fun p => if p.1 == k then (k, v) else p)
  else
    fields ++ [(k, v)]

/-- Object spread `{...base, ...extra}`: every field of `extra` is assigned
over `base`, later keys winning. -/
def mergeFields (base extra : List (String × Json)) : List (String × Json) :=
  extra.foldl (fun acc p => setField acc p.1 p.2) base

/-! ## Sync state store: `loadState` (src/sync/state.ts lines 14-37)

`loadState` reads the file, parses it, validates `state.artists` with
`!state.artists || typeof state.artists !== "object"`, and merges
`{...DEFAULT_STATE, ...state, artists: state.artists || {}}`; every thrown
error (unreadable file, parse error, property access on a `null` document)
is caught and yields the default state. -/

/-- Constant `DEFAULT_STATE = { artists: {}, version: "1.0.0" }` as a JSON document. -/
def defaultStateFields : List (String × Json) :=
  [("artists", Json.obj []), ("version", Json.str "1.0.0")]

/-- The default empty sync state. -/
def defaultStateJson : Json := Json.obj defaultStateFields

/-- Function `loadState` over the outcome of reading and parsing the state file.
`none` = file missing or unreadable; `some none` = `JSON.parse` threw;
`some (some doc)` = the parsed document. -/
def loadState (file : Option (Option Json)) : Json :=
  match file with
  | none => defaultStateJson
  | some none => defaultStateJson
  | some (some doc) =>
    match doc with
    | Json.obj fields =>
      match jsLookup fields "artists" with
      | none => defaultStateJson
      | some a =>
        if jsTruthy a && jsTypeofObject a then
          Json.obj (setField (mergeFields defaultStateFields fields) "artists" a)
        else
          defaultStateJson
    | Json.null => defaultStateJson
    | _ => defaultStateJson

/-- The keys of the `artists` field of a loaded state document
(`Object.keys(state.artists)` when it is a plain object). -/
def stateArtistKeys (state : Json) : List String :=
  match state with
  | Json.obj fields =>
    match jsLookup fields "artists" with
    | some (Json.obj afields) => afields.map (fun p => p.1)
    | _ => []
  | _ => []

/-- Whether a string is the decimal representation of a positive integer. -/
def isPosIntString (s : String) : Bool :=
  !s.isEmpty && s.data.all Char.isDigit &&
    s.data.foldl (fun acc c => acc * 10 + (c.toNat - 48)) 0 > 0

/-- JavaScript `parseInt(s, 10)`: optional leading whitespace, optional sign,
then leading decimal digits; `none` when no digit is found (`NaN`). -/
def jsParseInt (s : String) : Option Int :=
  let cs := s.data.dropWhile (fun c => c == ' ' || c == '\t' || c == '\n' || c == '\r')
  let signed : Bool × List Char :=
    match cs with
    | '-' :: rest => (true, rest)
    | '+' :: rest => (false, rest)
    | _ => (false, cs)
  let digits := signed.2.takeWhile Char.isDigit
  if digits.isEmpty then none
  else
    let v : Int := digits.foldl (fun acc c => acc * 10 + (c.toNat - 48 : Int)) 0
    some (if signed.1 then -v else v)

/-- Function `getAllArtistIds` (state.ts lines 127-131): `Object.keys(artists)` mapped
through `parseInt` with the `NaN` results filtered out. -/
def getAllArtistIds (state : Json) : List Int :=
  ((stateArtistKeys state).filterMap jsParseInt)

/-! ## Typed sync state and its update operations

The typed view of `SyncState` used by the update operations: `artists` is an
association list keyed by the numeric artist id (JS objects with numeric
keys), optional fields are `Option` (`none` = key absent). -/

/-- An `ArtistState` entry (src/sync/types).  `lastChecked` holds the instant
encoded by the stored ISO string. -/
structure ArtistState where
  name : String
  lastChecked : Option Int
  deezerId : Option Int
  lastReleaseDate : Option String
  existingReleases : Option (List String)
deriving Repr, DecidableEq

/-- The typed sync state: the `artists` map and the optional ignore list
(fields not used by the claims are omitted). -/
structure SyncState where
  artists : List (Nat × ArtistState)
  ignoredArtists : Option (List String)
deriving Repr, DecidableEq

/-- Read `state.artists[artistId]` — first binding wins. -/
def getArtist (s : SyncState) (artistId : Nat) : Option ArtistState :=
  (s.artists.find? (fun p => p.1 == artistId)).map (fun p => p.2)

/-- Write `state.artists[artistId] = a`: overwrite in place or append. -/
def setArtist (s : SyncState) (artistId : Nat) (a : ArtistState) : SyncState :=
  { s with artists :=
      if s.artists.any (fun p => p.1 == artistId) then
        s.artists.map (fun p => if p.1 == artistId then (artistId, a) else p)
      else
        s.artists ++ [(artistId, a)] }

/-- Function `updateArtistCheck` (state.ts lines 59-71).  The object literal writes
`name`, `lastChecked`, `deezerId` first and then spreads the existing entry
(`...(state.artists[artistId] || {})`) over them, so every field present on
the existing entry overrides the freshly written one. -/
def updateArtistCheck (s : SyncState) (artistId : Nat) (artistName : String)
    (timestamp : Int) : SyncState :=
  match getArtist s artistId with
  | none =>
    setArtist s artistId
      { name := artistName, lastChecked := some timestamp,
        deezerId := some artistId, lastReleaseDate := none,
        existingReleases := none }
  | some old =>
    setArtist s artistId
      { name := old.name,
        lastChecked := match old.lastChecked with
          | some t => some t
          | none => some timestamp,
        deezerId := match old.deezerId with
          | some d => some d
          | none => some artistId,
        lastReleaseDate := old.lastReleaseDate,
        existingReleases := old.existingReleases }

/-- Function `updateArtistLastRelease` (state.ts lines 76-89): fabricate a fresh entry
(`name: ""`, `lastChecked: new Date().toISOString()`, `deezerId`) when the
artist is unknown, then set `lastReleaseDate` in place.  `now` is the
instant of the implicit `new Date()`. -/
def updateArtistLastRelease (s : SyncState) (artistId : Nat)
    (releaseDate : String) (now : Int) : SyncState :=
  let base :=
    match getArtist s artistId with
    | some a => a
    | none =>
      { name := "", lastChecked := some now, deezerId := some artistId,
        lastReleaseDate := none, existingReleases := none }
  setArtist s artistId { base with lastReleaseDate := some releaseDate }

/-- Function `cacheArtistReleases` (state.ts lines 192-205): same fabrication for an
unknown artist, then set `existingReleases` in place. -/
def cacheArtistReleases (s : SyncState) (artistId : Nat)
    (releaseFolderNames : List String) (now : Int) : SyncState :=
  let base :=
    match getArtist s artistId with
    | some a => a
    | none =>
      { name := "", lastChecked := some now, deezerId := some artistId,
        lastReleaseDate := none, existingReleases := none }
  setArtist s artistId { base with existingReleases := some releaseFolderNames }

/-- Function `getLastCheck` (state.ts lines 94-105): `null` when the entry is missing
or has no `lastChecked`. -/
def getLastCheck (s : SyncState) (artistId : Nat) : Option Int :=
  match getArtist s artistId with
  | none => none
  | some a => a.lastChecked

/-- Function `shouldSkipArtist` (state.ts lines 110-122):
`(Date.now() - lastCheck.getTime()) / (1000*60*60) < checkIntervalHours`,
with no prior check never skipping.  `now` is `Date.now()` in ms. -/
def shouldSkipArtist (now : Int) (s : SyncState) (artistId : Nat)
    (checkIntervalHours : ℚ) : Bool :=
  match getLastCheck s artistId with
  | none => false
  | some last =>
    decide ((((now : ℚ) - (last : ℚ)) / (1000 * 60 * 60)) < checkIntervalHours)

/-! ## Artist-name normalization and the ignore list -/

/-- JavaScript `toLowerCase` on the ASCII and Latin-1 letter ranges (the only characters
occurring in the claims; JavaScript lowercases `À`–`Þ` except `×` by +0x20). -/
def jsToLower (c : Char) : Char :=
  if 'A' ≤ c && c ≤ 'Z' then Char.ofNat (c.toNat + 32)
  else if 0xC0 ≤ c.toNat && c.toNat ≤ 0xDE && c.toNat != 0xD7 then
    Char.ofNat (c.toNat + 32)
  else c

/-- The JavaScript regex class `\w` = `[A-Za-z0-9_]` (no Unicode flag). -/
def isWordChar (c : Char) : Bool :=
  ('a' ≤ c && c ≤ 'z') || ('A' ≤ c && c ≤ 'Z') ||
    ('0' ≤ c && c ≤ '9') || c == '_'

/-- The JavaScript regex class `\s`, restricted to its ASCII members. -/
def isJsSpace (c : Char) : Bool :=
  c == ' ' || c == '\t' || c == '\n' || c == '\r' ||
    c.toNat == 11 || c.toNat == 12

/-- JavaScript `String.prototype.trim`: drop whitespace at both ends. -/
def trimWs (cs : List Char) : List Char :=
  ((cs.dropWhile isJsSpace).reverse.dropWhile isJsSpace).reverse

/-- JavaScript `replace(/\s+/g, " ")`: each maximal whitespace run becomes one space. -/
def collapseWs : List Char → List Char
  | [] => []
  | [c] => [if isJsSpace c then ' ' else c]
  | c1 :: c2 :: rest =>
    if isJsSpace c1 && isJsSpace c2 then collapseWs (c2 :: rest)
    else (if isJsSpace c1 then ' ' else c1) :: collapseWs (c2 :: rest)

/-- Function `normalizeArtistName` (src/library/scanner.ts lines 11-17):
lowercase, trim, strip `[^\w\s]`, collapse `\s+` to a single space. -/
def normalizeArtistName (name : String) : String :=
  String.mk (collapseWs
    ((trimWs (name.data.map jsToLower)).filter
      (fun c => isWordChar c || isJsSpace c)))

/-- Function `isArtistIgnored` (state.ts lines 221-230). -/
def isArtistIgnored (s : SyncState) (artistName : String) : Bool :=
  match s.ignoredArtists with
  | none => false
  | some l =>
    if l.isEmpty then false
    else l.any (fun i => normalizeArtistName i == normalizeArtistName artistName)

/-- Function `addIgnoredArtist` (state.ts lines 235-249): idempotent up to
normalization; stores the original name. -/
def addIgnoredArtist (s : SyncState) (artistName : String) : SyncState :=
  let l := match s.ignoredArtists with
    | none => []
    | some l => l
  if l.any (fun i => normalizeArtistName i == normalizeArtistName artistName) then
    { s with ignoredArtists := some l }
  else
    { s with ignoredArtists := some (l ++ [artistName]) }

/-! ## Batch scheduler: `processArtistsBatch` (sync.ts lines 316-342)

The source loops over `items`, pushing `processor(item).then(r =>
results.push(r))` into `executing`; once `executing.length >= concurrency`
it `await`s `Promise.race(executing)` and then splices out **the promise
just pushed** (`executing.findIndex(p => p === promise)`), not the promise
that settled; finally it `await`s `Promise.all(executing)` and returns
`results`.

The event loop is embedded by a completion-priority schedule `sched`: at a
blocking `await`, pending launched worker promises settle one at a time in
`sched` order until the awaited condition holds (`Promise.race`: some member
of the raced array is settled; `Promise.all`: every member is settled).  A
worker promise settles only after it has been launched.  When a worker
settles, its `.then` pushes its result, so `settled` (in settlement order)
is the `results` array.  Workers are identified by their index in `items`. -/

/-- State of the batch simulation: which promises have been launched, the
`executing` array, and the settled promises in settlement order (= the
`results` array). -/
structure BatchSim where
  launched : List Nat
  executing : List Nat
  settled : List Nat
deriving Repr, DecidableEq

/-- The next pending launched promise in schedule order, if any. -/
def nextToSettle (sched : List Nat) (st : BatchSim) : Option Nat :=
  sched.find? (fun p => st.launched.contains p && !st.settled.contains p)

/-- Await of `Promise.race(st.executing)`: settle pending promises in schedule
order until some member of `executing` has settled (immediate when one
already has).  `fuel` bounds the loop; `sched.length` always suffices. -/
def raceWait (sched : List Nat) : Nat → BatchSim → BatchSim
  | 0, st => st
  | fuel + 1, st =>
    if st.executing.any (fun p => st.settled.contains p) then st
    else
      match nextToSettle sched st with
      | none => st
      | some p => raceWait sched fuel { st with settled := st.settled ++ [p] }

/-- Await of `Promise.all(st.executing)`: settle pending promises in schedule
order until every member of `executing` has settled. -/
def allWait (sched : List Nat) : Nat → BatchSim → BatchSim
  | 0, st => st
  | fuel + 1, st =>
    if st.executing.all (fun p => st.settled.contains p) then st
    else
      match nextToSettle sched st with
      | none => st
      | some p => allWait sched fuel { st with settled := st.settled ++ [p] }

/-- One iteration of the `for (const item of items)` loop for worker `i`:
launch the promise, push it into `executing`, and when the window is full,
race and then splice out the promise just pushed (the source's
`executing.findIndex(p => p === promise)`). -/
def batchStep (sched : List Nat) (concurrency : Nat) (st : BatchSim) (i : Nat) :
    BatchSim :=
  let st := { st with launched := st.launched ++ [i],
                      executing := st.executing ++ [i] }
  if concurrency ≤ st.executing.length then
    let st := raceWait sched sched.length st
    { st with executing := st.executing.erase i }
  else st

/-- Function `processArtistsBatch(items, concurrency, processor)` under completion
schedule `sched`: the value of `results` at the moment the returned promise
resolves. -/
def processArtistsBatch (items : List Nat) (concurrency : Nat)
    (sched : List Nat) : List Nat :=
  (allWait sched sched.length
    (items.foldl (batchStep sched concurrency) ⟨[], [], []⟩)).settled

/-! ## Sync orchestrator: `syncLibrary` (sync.ts lines 362-822)

The per-artist worker closure (lines 542-769) ends in exactly one of these
ways; ignored artists are filtered out before scheduling (lines 496-498). -/

/-- Outcome of one library artist in a full-library pass, assuming its
worker runs to completion (see `processArtistsBatch` for when it may not). -/
inductive ArtistOutcome where
  /-- Filtered out by `isArtistIgnored` before scheduling. -/
  | ignored : ArtistOutcome
  /-- Lookup `findArtistId` returned null: an error is recorded, early return. -/
  | notFound : ArtistOutcome
  /-- Skip test `shouldSkipArtist` was true: `skippedArtists++`, early return. -/
  | skipped : ArtistOutcome
  /-- Call `checkArtistForNewReleases` reported an error: recorded, early return. -/
  | checkError : ArtistOutcome
  /-- Check succeeded: `checkedArtists++`, `newReleasesCount += k`. -/
  | checked (newReleases : Nat) : ArtistOutcome
deriving Repr, DecidableEq

/-- The mutable counters of `syncLibrary` (lines 498-503). -/
structure SyncCounters where
  checkedArtists : Nat
  skippedArtists : Nat
  ignoredArtistsCount : Nat
  errorsCount : Nat
  newReleasesCount : Nat
deriving Repr, DecidableEq

/-- How one artist outcome updates the counters, following the worker
closure: errors increment neither `checkedArtists` nor `skippedArtists`,
only the `errors` array. -/
def tallyOutcome (c : SyncCounters) : ArtistOutcome → SyncCounters
  | ArtistOutcome.ignored => { c with ignoredArtistsCount := c.ignoredArtistsCount + 1 }
  | ArtistOutcome.notFound => { c with errorsCount := c.errorsCount + 1 }
  | ArtistOutcome.skipped => { c with skippedArtists := c.skippedArtists + 1 }
  | ArtistOutcome.checkError => { c with errorsCount := c.errorsCount + 1 }
  | ArtistOutcome.checked k =>
    { c with checkedArtists := c.checkedArtists + 1,
             newReleasesCount := c.newReleasesCount + k }

/-- The counters after a full pass over the library artists. -/
def syncTally (outcomes : List ArtistOutcome) : SyncCounters :=
  outcomes.foldl tallyOutcome ⟨0, 0, 0, 0, 0⟩

/-- The `SyncSummary` assembled at sync.ts lines 802-810:
`skippedArtists` in the summary is `skippedArtists + ignoredArtistsCount`. -/
structure SyncSummary where
  totalArtists : Nat
  checkedArtists : Nat
  skippedArtists : Nat
  newReleases : Nat
deriving Repr, DecidableEq

/-- The summary of a full-library pass whose artists ended in `outcomes`
(one entry per library artist). -/
def syncSummary (outcomes : List ArtistOutcome) : SyncSummary :=
  let c := syncTally outcomes
  { totalArtists := outcomes.length,
    checkedArtists := c.checkedArtists,
    skippedArtists := c.skippedArtists + c.ignoredArtistsCount,
    newReleases := c.newReleasesCount }

/-- The external-call outcomes one `syncLibrary` run encounters, at the
granularity of the collaborators the claims name: credential lookup, login,
per-artist outcomes, and the final `saveState` write. -/
structure SyncEnv where
  arlPresent : Bool
  loginOk : Bool
  outcomes : List ArtistOutcome
  saveOk : Bool
deriving Repr, DecidableEq

/-- The ways `syncLibrary` throws. -/
inductive SyncError where
  /-- Thrown `new Error("DEEZER_ARL not found...")` (line 387). -/
  | missingArl : SyncError
  /-- Thrown `new Error("Failed to login to Deezer...")` (line 392). -/
  | loginFailed : SyncError
  /-- Call `saveState` rethrows its write error (state.ts line 52, called at 795). -/
  | saveFailed : SyncError
deriving Repr, DecidableEq

/-- The parts of `SyncResult` the claims mention. -/
structure SyncResult where
  summary : SyncSummary
  errorsCount : Nat
deriving Repr, DecidableEq

/-- Function `syncLibrary` control flow (lines 362-822): missing credential and
failed login throw before any artist-level work; the batch runs with every
worker outcome folded into the counters; `saveState` (line 795) rethrows a
write failure before the summary is assembled (lines 798-810). -/
def syncLibrary (env : SyncEnv) : Except SyncError SyncResult :=
  if !env.arlPresent then Except.error SyncError.missingArl
  else if !env.loginOk then Except.error SyncError.loginFailed
  else if !env.saveOk then Except.error SyncError.saveFailed
  else
    Except.ok { summary := syncSummary env.outcomes,
                errorsCount := (syncTally env.outcomes).errorsCount }

/-! ## Release-type classification -/

/-- The release types. -/
inductive ReleaseType where
  | single : ReleaseType
  | ep : ReleaseType
  | album : ReleaseType
deriving Repr, DecidableEq

/-- Modelled from the spec: `determineReleaseType` is defined in
`folder-resolver.js`, which is not among the provided sources (only its
importers are).  Spec section 4.1: provider type `"single"` or
`trackCount <= 2` gives Single; `trackCount <= 6` gives EP; otherwise
Album.  `providerType = none` models an absent provider type. -/
def determineReleaseType (trackCount : Nat) (providerType : Option String) :
    ReleaseType :=
  if providerType == some "single" || trackCount ≤ 2 then ReleaseType.single
  else if trackCount ≤ 6 then ReleaseType.ep
  else ReleaseType.album

/-! ## Helper lemmas -/

/-- Replacing the binding of `id` in a list that contains it makes
`find?` on the key return the new binding. -/
theorem find?_key_replace (l : List (Nat × ArtistState)) (id : Nat)
    (a : ArtistState) (h : l.any (fun p => p.1 == id) = true) :
    (l.map (fun p => if p.1 == id then (id, a) else p)).find?
      (fun p => p.1 == id) = some (id, a) := by
  induction l with
  | nil => simp at h
  | cons p t ih =>
    rw [List.map_cons]
    by_cases hp : (p.1 == id) = true
    · rw [if_pos hp, List.find?_cons]
      simp
    · have hp' : (p.1 == id) = false := by simpa using hp
      have ht : t.any (fun p => p.1 == id) = true := by
        simpa [hp'] using h
      rw [if_neg hp, List.find?_cons, hp']
      exact ih ht

/-- Appending the binding of a key that is absent makes `find?` on the key
return it. -/
theorem find?_key_append (l : List (Nat × ArtistState)) (id : Nat)
    (a : ArtistState) (h : l.any (fun p => p.1 == id) = false) :
    (l ++ [(id, a)]).find? (fun p => p.1 == id) = some (id, a) := by
  induction l with
  | nil =>
    rw [List.nil_append, List.find?_cons]
    simp
  | cons p t ih =>
    have hp : (p.1 == id) = false := by
      by_contra hc
      simp only [Bool.not_eq_false] at hc
      simp [hc] at h
    have ht : t.any (fun p => p.1 == id) = false := by
      simpa [hp] using h
    rw [List.cons_append, List.find?_cons, hp]
    exact ih ht

/-- Reading back the artist just written. -/
theorem getArtist_setArtist (s : SyncState) (id : Nat) (a : ArtistState) :
    getArtist (setArtist s id a) id = some a := by
  unfold getArtist setArtist
  by_cases hc : s.artists.any (fun p => p.1 == id) = true
  · simp only [hc, if_true, find?_key_replace _ _ _ hc, Option.map_some']
  · simp only [Bool.not_eq_true] at hc
    simp only [hc, Bool.false_eq_true, if_false,
      find?_key_append _ _ _ hc, Option.map_some']

/-- Writing an artist adds no key other than the one written. -/
theorem mem_setArtist_keys {s : SyncState} {id k : Nat} {a : ArtistState}
    (h : k ∈ (setArtist s id a).artists.map Prod.fst) :
    k ∈ s.artists.map Prod.fst ∨ k = id := by
  unfold setArtist at h
  by_cases hc : s.artists.any (fun p => p.1 == id) = true
  · simp only [hc, if_true] at h
    rcases List.mem_map.mp h with ⟨p, hp, hfst⟩
    rcases List.mem_map.mp hp with ⟨q, hq, rfl⟩
    by_cases hq1 : (q.1 == id) = true
    · right
      simp [hq1] at hfst
      omega
    · left
      simp [hq1] at hfst
      exact hfst ▸ List.mem_map.mpr ⟨q, hq, rfl⟩
  · simp only [Bool.not_eq_true] at hc
    simp only [hc, Bool.false_eq_true, if_false, List.map_append,
      List.mem_append] at h
    rcases h with h | h
    · exact Or.inl h
    · right
      simpa using h

/-- Summing the tallied counters over a pass: the four disjoint buckets
(checked, skipped, ignored, errored) add up to one per artist. -/
theorem syncTally_counts (outcomes : List ArtistOutcome) (c : SyncCounters) :
    (outcomes.foldl tallyOutcome c).checkedArtists +
      (outcomes.foldl tallyOutcome c).skippedArtists +
      (outcomes.foldl tallyOutcome c).ignoredArtistsCount +
      (outcomes.foldl tallyOutcome c).errorsCount =
    c.checkedArtists + c.skippedArtists + c.ignoredArtistsCount +
      c.errorsCount + outcomes.length := by
  induction outcomes generalizing c with
  | nil => simp
  | cons o t ih =>
    cases o <;> simp only [List.foldl_cons, tallyOutcome, ih,
      List.length_cons] <;> omega

/-! ## Claim theorems -/

/-- C1: the claim says `updateArtistCheck(state, artistId, name, timestamp)`
always leaves `state.artists[artistId]` with `lastChecked` equal to the
given timestamp and `name` equal to the given name.  On a pre-existing
entry the source spreads the old entry last, so both keep their old values:
updating artist 7 (stored name "Old", lastChecked instant 0) with name
"New" and timestamp 3600000 leaves the state completely unchanged, and in
particular `lastChecked` is not the given timestamp. -/
theorem updateArtistCheck_stale_on_existing_entry :
    updateArtistCheck
        ⟨[(7, ⟨"Old", some 0, some 7, none, none⟩)], none⟩ 7 "New" 3600000 =
      ⟨[(7, ⟨"Old", some 0, some 7, none, none⟩)], none⟩ ∧
    (getArtist (updateArtistCheck
        ⟨[(7, ⟨"Old", some 0, some 7, none, none⟩)], none⟩ 7 "New" 3600000)
        7).map ArtistState.lastChecked ≠ some (some 3600000) ∧
    (getArtist (updateArtistCheck
        ⟨[(7, ⟨"Old", some 0, some 7, none, none⟩)], none⟩ 7 "New" 3600000)
        7).map ArtistState.name ≠ some "New" := by
  refine ⟨by decide, by decide, by decide⟩

/-- C2: the claim says the batch runner resolves only after every worker
promise has settled, with exactly one result per input item.  With items
`[0, 1, 2]`, concurrency 2 and workers settling in launch order, the source
splices the most recently launched promise (not the settled one) out of
`executing` after each race, so the final `Promise.all` waits only on
worker 0: the batch resolves with results `[r0]` — one result instead of
three — while workers 1 and 2 are still pending. -/
theorem processArtistsBatch_resolves_with_pending_workers :
    processArtistsBatch [0, 1, 2] 2 [0, 1, 2] = [0] ∧
      (processArtistsBatch [0, 1, 2] 2 [0, 1, 2]).length ≠ 3 := by
  refine ⟨by decide, by decide⟩

/-- C3 counterexample: a full-library pass over a single artist whose check
ends in an error yields `checkedArtists = 0` and `skippedArtists = 0`
(errors are pushed to the `errors` array and counted in neither bucket),
while `totalArtists = 1` — the claimed identity fails. -/
theorem syncSummary_arith_fails_on_error :
    (syncSummary [ArtistOutcome.checkError]).checkedArtists +
        (syncSummary [ArtistOutcome.checkError]).skippedArtists ≠
      (syncSummary [ArtistOutcome.checkError]).totalArtists := by
  decide

/-- C3 (amended): after a full-library pass,
`checkedArtists + skippedArtists (incl. ignored) + (number of artists whose
check failed: not found on the provider or check error) = totalArtists`;
the claimed identity `checked + skipped = total` holds exactly when no
artist's check failed. -/
theorem syncSummary_arith_with_error_count (outcomes : List ArtistOutcome) :
    (syncSummary outcomes).checkedArtists +
        (syncSummary outcomes).skippedArtists +
        (syncTally outcomes).errorsCount =
      (syncSummary outcomes).totalArtists := by
  have h := syncTally_counts outcomes ⟨0, 0, 0, 0, 0⟩
  simp only [syncSummary, syncTally] at *
  omega

/-- C4 counterexample: `é` is not a JavaScript `\w` character, so
`normalizeArtistName` maps `"Beyoncé"` to `"beyonc"` but `"beyonce"` to
`"beyonce"`; after `addIgnoredArtist(state, "Beyoncé")` the claimed lookup
`isArtistIgnored(state, "beyonce")` is false. -/
theorem ignore_beyonce_ascii_not_matched :
    isArtistIgnored (addIgnoredArtist ⟨[], none⟩ "Beyoncé") "beyonce" = false ∧
      normalizeArtistName "Beyoncé" = "beyonc" ∧
      normalizeArtistName "beyonce" = "beyonce" := by
  refine ⟨by decide, by decide, by decide⟩

/-- C4 (amended): `isArtistIgnored(state, n)` is true iff some entry of the
ignore list has the same result under the name normalization as `n`; since
normalization strips non-ASCII letters, the variants that match
`"Beyoncé"` are those normalizing to `"beyonc"`, e.g. `"beyoncé"` — not
the claimed `"beyonce"`. -/
theorem isArtistIgnored_iff_normalized :
    (∀ (s : SyncState) (n : String),
        isArtistIgnored s n = true ↔
          ∃ i ∈ s.ignoredArtists.getD [],
            normalizeArtistName i = normalizeArtistName n) ∧
      isArtistIgnored (addIgnoredArtist ⟨[], none⟩ "Beyoncé") "beyoncé" = true := by
  constructor
  · intro s n
    cases h : s.ignoredArtists with
    | none => simp [isArtistIgnored, h]
    | some l =>
      by_cases he : l.isEmpty
      · simp [isArtistIgnored, h, he, List.isEmpty_iff.mp he]
      · simp [isArtistIgnored, h, he, List.any_eq_true]
  · decide

/-- C5 counterexample: with the credential present and login succeeding,
a failing `saveState` write is rethrown after all artist-level work, so
`syncLibrary` throws even though authentication succeeded. -/
theorem syncLibrary_throws_on_save_failure :
    syncLibrary ⟨true, true, [], false⟩ = Except.error SyncError.saveFailed := rfl

/-- C5 (amended): `syncLibrary` returns a summary iff the credential is
present, login succeeds and the final state save succeeds — for every
combination of per-artist outcomes, including every artist failing; the
two authentication failures and the state-save failure are the only
throws. -/
theorem syncLibrary_ok_iff_auth_and_save (env : SyncEnv) :
    (∃ r, syncLibrary env = Except.ok r) ↔
      (env.arlPresent = true ∧ env.loginOk = true ∧ env.saveOk = true) := by
  cases env with
  | mk arl login outcomes save =>
    cases arl <;> cases login <;> cases save <;> simp [syncLibrary]

/-- C6: `loadState` never throws (every internal throw is caught and every
case of the embedding is total) and returns the default empty state
`{artists: {}, version}` when the file is missing or unreadable, when its
content is not valid JSON, and when the parsed document's `artists` field
is absent or not an object — in JavaScript's `typeof` sense, so a `null`,
boolean, number or string `artists` field, or a non-object document,
yields the default; includes the spec's `{"artists": "not-an-object"}`
example. -/
theorem loadState_defaults_on_bad_input :
    loadState none = defaultStateJson ∧
    loadState (some none) = defaultStateJson ∧
    (∀ fields, jsLookup fields "artists" = none →
      loadState (some (some (Json.obj fields))) = defaultStateJson) ∧
    (∀ fields v, jsLookup fields "artists" = some v →
      (v = Json.null ∨ (∃ b, v = Json.bool b) ∨ (∃ q, v = Json.num q) ∨
        (∃ s, v = Json.str s)) →
      loadState (some (some (Json.obj fields))) = defaultStateJson) ∧
    (∀ doc, (doc = Json.null ∨ (∃ b, doc = Json.bool b) ∨
        (∃ q, doc = Json.num q) ∨ (∃ s, doc = Json.str s) ∨
        (∃ l, doc = Json.arr l)) →
      loadState (some (some doc)) = defaultStateJson) ∧
    loadState (some (some (Json.obj [("artists", Json.str "not-an-object")])))
      = defaultStateJson := by
  refine ⟨rfl, rfl, ?_, ?_, ?_, rfl⟩
  · intro fields h
    simp [loadState, h]
  · intro fields v h hv
    rcases hv with rfl | ⟨b, rfl⟩ | ⟨q, rfl⟩ | ⟨s, rfl⟩ <;>
      simp [loadState, h, jsTruthy, jsTypeofObject]
  · intro doc hd
    rcases hd with rfl | ⟨b, rfl⟩ | ⟨q, rfl⟩ | ⟨s, rfl⟩ | ⟨l, rfl⟩ <;> rfl

/-- C6 witness: a state file whose document has no `artists` field loads as
the default empty state. -/
theorem loadState_defaults_on_bad_input_witness :
    jsLookup [("version", Json.str "2")] "artists" = none ∧
      loadState (some (some (Json.obj [("version", Json.str "2")]))) =
        defaultStateJson :=
  ⟨rfl, loadState_defaults_on_bad_input.2.2.1 [("version", Json.str "2")] rfl⟩

/-- C7 counterexample: loading `{"artists": {"foo": {}}}` produces a state
whose `artists` map has the key `"foo"`, which is not a valid positive
integer — `loadState` keeps whatever keys the file had. -/
theorem loadState_admits_non_integer_key :
    stateArtistKeys (loadState (some (some
        (Json.obj [("artists", Json.obj [("foo", Json.obj [])])])))) =
      ["foo"] ∧
      isPosIntString "foo" = false ∧ jsParseInt "foo" = none := by
  refine ⟨rfl, by decide, by decide⟩

/-- C7 (amended): the state-store update operations preserve the key
invariant — each adds no key besides the numeric `artistId` it is given —
but `loadState` performs no key validation, so a state loaded from a
malformed file can carry non-integer keys (which `getAllArtistIds` then
filters out). -/
theorem update_ops_add_only_given_key
    (s : SyncState) (artistId k : Nat) (artistName : String)
    (timestamp : Int) (releaseDate : String) (folders : List String)
    (now₁ now₂ : Int) :
    (k ∈ (updateArtistCheck s artistId artistName timestamp).artists.map
        Prod.fst →
      k ∈ s.artists.map Prod.fst ∨ k = artistId) ∧
    (k ∈ (updateArtistLastRelease s artistId releaseDate now₁).artists.map
        Prod.fst →
      k ∈ s.artists.map Prod.fst ∨ k = artistId) ∧
    (k ∈ (cacheArtistReleases s artistId folders now₂).artists.map
        Prod.fst →
      k ∈ s.artists.map Prod.fst ∨ k = artistId) := by
  refine ⟨?_, ?_, ?_⟩ <;> intro h
  · cases hg : getArtist s artistId with
    | none =>
      simp only [updateArtistCheck, hg] at h
      exact mem_setArtist_keys h
    | some old =>
      simp only [updateArtistCheck, hg] at h
      exact mem_setArtist_keys h
  · cases hg : getArtist s artistId with
    | none =>
      simp only [updateArtistLastRelease, hg] at h
      exact mem_setArtist_keys h
    | some old =>
      simp only [updateArtistLastRelease, hg] at h
      exact mem_setArtist_keys h
  · cases hg : getArtist s artistId with
    | none =>
      simp only [cacheArtistReleases, hg] at h
      exact mem_setArtist_keys h
    | some old =>
      simp only [cacheArtistReleases, hg] at h
      exact mem_setArtist_keys h

/-- C7 witness: writing artist 7 into the empty state yields only the key 7. -/
theorem update_ops_add_only_given_key_witness :
    (7 ∈ (updateArtistCheck ⟨[], none⟩ 7 "A" 0).artists.map Prod.fst) ∧
      (7 ∈ (⟨[], none⟩ : SyncState).artists.map Prod.fst ∨ 7 = 7) :=
  ⟨by decide,
    (update_ops_add_only_given_key ⟨[], none⟩ 7 7 "A" 0 "d" [] 0 0).1
      (by decide)⟩

/-- C8: release classification (modelled from the spec, since
`folder-resolver.js` is not among the sources): provider type `"single"`
or `trackCount ≤ 2` gives Single; otherwise 3–6 tracks give EP and 7 or
more give Album; when the provider type is absent or `"album"` the result
depends only on the track count with boundaries {1,2} Single, {3..6} EP,
{7,...} Album. -/
theorem determineReleaseType_boundaries (trackCount : Nat)
    (providerType : Option String) :
    ((providerType = some "single" ∨ trackCount ≤ 2) →
      determineReleaseType trackCount providerType = ReleaseType.single) ∧
    (providerType ≠ some "single" → 3 ≤ trackCount → trackCount ≤ 6 →
      determineReleaseType trackCount providerType = ReleaseType.ep) ∧
    (providerType ≠ some "single" → 7 ≤ trackCount →
      determineReleaseType trackCount providerType = ReleaseType.album) ∧
    ((providerType = none ∨ providerType = some "album") →
      ((determineReleaseType trackCount providerType = ReleaseType.single ↔
          trackCount ≤ 2) ∧
       (determineReleaseType trackCount providerType = ReleaseType.ep ↔
          3 ≤ trackCount ∧ trackCount ≤ 6) ∧
       (determineReleaseType trackCount providerType = ReleaseType.album ↔
          7 ≤ trackCount))) := by
  have hval : ∀ (pt : Option String) (tc : Nat),
      determineReleaseType tc pt =
        if pt = some "single" ∨ tc ≤ 2 then ReleaseType.single
        else if tc ≤ 6 then ReleaseType.ep
        else ReleaseType.album := by
    intro pt tc
    unfold determineReleaseType
    by_cases hs : pt = some "single" <;> by_cases h2 : tc ≤ 2 <;>
      simp [hs, h2]
  refine ⟨?_, ?_, ?_, ?_⟩
  · intro h
    rw [hval, if_pos h]
  · intro h1 h3 h6
    rw [hval,
      if_neg (by rintro (hh | hh); exacts [h1 hh, absurd hh (by omega)]),
      if_pos h6]
  · intro h1 h7
    rw [hval,
      if_neg (by rintro (hh | hh); exacts [h1 hh, absurd hh (by omega)]),
      if_neg (by omega)]
  · intro hpa
    have hs : providerType ≠ some "single" := by
      rintro rfl
      rcases hpa with h | h <;> simp at h
    rw [hval]
    by_cases h2 : trackCount ≤ 2
    · rw [if_pos (Or.inr h2)]
      refine ⟨by simp [h2], ?_, ?_⟩ <;> constructor <;> intro hh
      · exact absurd hh (by decide)
      · exact absurd hh.1 (by omega)
      · exact absurd hh (by decide)
      · exact absurd hh (by omega)
    · by_cases h6 : trackCount ≤ 6
      · rw [if_neg (by rintro (hh | hh); exacts [hs hh, h2 hh]), if_pos h6]
        refine ⟨?_, ?_, ?_⟩ <;> constructor <;> intro hh
        · exact absurd hh (by decide)
        · exact absurd hh h2
        · exact ⟨by omega, h6⟩
        · rfl
        · exact absurd hh (by decide)
        · exact absurd hh (by omega)
      · rw [if_neg (by rintro (hh | hh); exacts [hs hh, h2 hh]), if_neg h6]
        refine ⟨?_, ?_, ?_⟩ <;> constructor <;> intro hh
        · exact absurd hh (by decide)
        · exact absurd hh h2
        · exact absurd hh (by decide)
        · exact absurd hh.2 h6
        · omega
        · rfl

/-- C8 witness: an `"album"`-typed release with 4 tracks classifies as EP. -/
theorem determineReleaseType_boundaries_witness :
    ((some "album" : Option String) ≠ some "single" ∧ 3 ≤ 4 ∧ 4 ≤ 6) ∧
      determineReleaseType 4 (some "album") = ReleaseType.ep :=
  ⟨by decide,
    (determineReleaseType_boundaries 4 (some "album")).2.1 (by decide)
      (by decide) (by decide)⟩

/-- C9: `shouldSkipArtist(state, artistId, intervalHours)` is true iff a
prior check is recorded for the artist and `now - lastChecked` is below the
interval (stated in milliseconds: `now - t < intervalHours * 3600000`);
with a 24-hour interval, an artist checked 23 hours ago is skipped, one
checked 25 hours ago is not, and one never checked is never skipped. -/
theorem shouldSkipArtist_skip_policy :
    (∀ (now : Int) (s : SyncState) (artistId : Nat) (intervalHours : ℚ),
        shouldSkipArtist now s artistId intervalHours = true ↔
          ∃ t, getLastCheck s artistId = some t ∧
            ((now : ℚ) - (t : ℚ)) < intervalHours * 3600000) ∧
    shouldSkipArtist 3600000000
      ⟨[(1, ⟨"A", some (3600000000 - 23 * 3600000), none, none, none⟩)],
        none⟩ 1 24 = true ∧
    shouldSkipArtist 3600000000
      ⟨[(1, ⟨"A", some (3600000000 - 25 * 3600000), none, none, none⟩)],
        none⟩ 1 24 = false ∧
    shouldSkipArtist 3600000000 ⟨[], none⟩ 1 24 = false := by
  have hgen : ∀ (now : Int) (s : SyncState) (artistId : Nat)
      (intervalHours : ℚ),
      shouldSkipArtist now s artistId intervalHours = true ↔
        ∃ t, getLastCheck s artistId = some t ∧
          ((now : ℚ) - (t : ℚ)) < intervalHours * 3600000 := by
    intro now s artistId intervalHours
    cases h : getLastCheck s artistId with
    | none => simp [shouldSkipArtist, h]
    | some t =>
      simp only [shouldSkipArtist, h, decide_eq_true_eq, Option.some.injEq]
      rw [div_lt_iff₀ (by norm_num : (0 : ℚ) < 1000 * 60 * 60),
        show (1000 * 60 * 60 : ℚ) = 3600000 by norm_num]
      constructor
      · intro hlt
        exact ⟨t, rfl, hlt⟩
      · rintro ⟨t1, rfl, hlt⟩
        exact hlt
  refine ⟨hgen, ?_, ?_, ?_⟩
  · rw [hgen]
    refine ⟨3600000000 - 23 * 3600000, rfl, by push_cast; norm_num⟩
  · rw [Bool.eq_false_iff, ne_eq, hgen]
    rintro ⟨t, ht, hlt⟩
    rw [show getLastCheck
        ⟨[(1, ⟨"A", some (3600000000 - 25 * 3600000), none, none, none⟩)],
          none⟩ 1 = some (3600000000 - 25 * 3600000) from rfl] at ht
    injection ht with heq
    subst heq
    push_cast at hlt
    linarith
  · rw [Bool.eq_false_iff, ne_eq, hgen]
    rintro ⟨t, ht, _⟩
    simp [getLastCheck, getArtist] at ht

/-- C10: `updateArtistLastRelease` on an artist with no entry fabricates a
nameless entry whose `lastChecked` is the current time and `deezerId` the
given id, then sets its `lastReleaseDate` to the given date. -/
theorem updateArtistLastRelease_fabricates_entry
    (s : SyncState) (artistId : Nat) (releaseDate : String) (now : Int)
    (h : getArtist s artistId = none) :
    getArtist (updateArtistLastRelease s artistId releaseDate now) artistId =
      some ⟨"", some now, some artistId, some releaseDate, none⟩ := by
  unfold updateArtistLastRelease
  rw [h]
  exact getArtist_setArtist s artistId _

/-- C10 witness: updating the last release date of unknown artist 5 in the
empty state creates the fabricated entry. -/
theorem updateArtistLastRelease_fabricates_entry_witness :
    getArtist (⟨[], none⟩ : SyncState) 5 = none ∧
      getArtist (updateArtistLastRelease ⟨[], none⟩ 5 "2024-01-01" 777) 5 =
        some ⟨"", some 777, some 5, some "2024-01-01", none⟩ :=
  ⟨rfl, updateArtistLastRelease_fabricates_entry ⟨[], none⟩ 5 "2024-01-01" 777
    rfl⟩
